import Mathlib

/-!
Shallow embedding of the transcription core of the `speech-transcription`
repository (src/src/transcription/), with theorems checking the spec's
claims about it.

Embedded modules:
* `src/transcription/enums.py` — `Language`, `Model`, `ResultFormat`;
* `src/transcription/speech_transcription.py` — the engine
  `SpeechTranscription` (model caches, `_get_asr`/`_get_align`,
  `_transcribe`, `_align`, `transcribe`, `clean`);
* `src/transcription/services.py` — `SpeechTranscriptionService`
  (`transcribe`, `_to_text`, `_to_srt`, `_transcribe`).

Machine state (model caches, files on disk) is passed explicitly;
Python exceptions become `Except PyError`; external calls (the source
separator, `load_audio`, the ASR decode, the `align` call) are oracles
supplied by an `Env` record, so every theorem quantifies over their
possible outcomes.  Times are modelled as rationals (no arithmetic is
ever performed on them, they are only carried through).
-/

namespace SpeechTranscriptionSpec

abbrev Time := ℚ

/-- `whisperx.types.SingleSegment`: a raw decoded segment. -/
structure SingleSegment where
  start : Time
  stop : Time
  text : String
  deriving DecidableEq, Repr

/-- `whisperx.types.SingleWordSegment`: word with timing and optional score. -/
structure SingleWordSegment where
  word : String
  start : Time
  stop : Time
  score : Option Time
  deriving DecidableEq, Repr

/-- `whisperx.types.TranscriptionResult`: the ASR decode output. -/
structure TranscriptionResult where
  segments : List SingleSegment
  language : String
  deriving DecidableEq, Repr

/-- `whisperx.types.AlignedTranscriptionResult`: the forced-alignment output. -/
structure AlignedResult where
  segments : List SingleSegment
  word_segments : List SingleWordSegment
  deriving DecidableEq, Repr

/-- Modelled from the spec: `src/transcription/schemas.py` is not under
`src/`; the spec gives the subtitle-style payload shape
`{number, text, start, end}` for its `Segment` model. -/
structure Segment where
  number : Nat
  text : String
  start : Time
  stop : Time
  deriving DecidableEq, Repr

/-- Modelled from the spec: `src/transcription/schemas.py` is not under
`src/`; the spec gives the word payload shape `{word, start, end, score?}`
for its `WordSegment` model, built verbatim from a `SingleWordSegment`
(`WordSegment(**word)` in `services.py`). -/
structure WordSegment where
  word : String
  start : Time
  stop : Time
  score : Option Time
  deriving DecidableEq, Repr

/-- The Python exception classes the embedded code can raise. -/
inductive PyError where
  | runtimeError (msg : String)
  | valueError (msg : String)
  | typeError (msg : String)
  | attributeError (msg : String)
  | otherError (msg : String)
  deriving DecidableEq, Repr

/-! ## Python string primitives -/

/-- Python's whitespace set for `str.strip()`. -/
def isPySpace (c : Char) : Bool :=
  c = ' ' || c = '\t' || c = '\n' || c = '\r' || c = '\x0b' || c = '\x0c'

/-- Python `str.strip()`: drop leading and trailing whitespace. -/
def pyStrip (s : String) : String :=
  ⟨((s.data.dropWhile isPySpace).reverse.dropWhile isPySpace).reverse⟩

/-- Python `sep.join(xs)`: the separator goes between consecutive items. -/
def pyJoin (sep : String) : List String → String
  | [] => ""
  | [x] => x
  | x :: xs => x ++ sep ++ pyJoin sep xs

/-! ## Enums (`src/transcription/enums.py`) -/

/-- `Language(BaseEnum)`. -/
inductive Language where
  | russian
  | english
  deriving DecidableEq, Repr

def Language.val : Language → String
  | .russian => "ru"
  | .english => "en"

/-- `Model(BaseEnum)`. -/
inductive Model where
  | small
  | medium
  | turbo
  deriving DecidableEq, Repr

def Model.val : Model → String
  | .small => "small"
  | .medium => "medium"
  | .turbo => "turbo"

/-! `ResultFormat(BaseEnum)` has values `"text"`, `"srt"`, `"full"`.
Because Python does not enforce the annotation, the service's
`format_result` parameter is modelled as the underlying string, so that a
value outside the enumerated set is expressible; the `match` in
`SpeechTranscriptionService.transcribe` compares against the three
enumerated values and raises `ValueError` otherwise. -/

def ResultFormatTEXT : String := "text"
def ResultFormatSRT : String := "srt"
def ResultFormatFULL : String := "full"

/-! ## Result formatters (`services.py` `_to_text`, `_to_srt`) -/

/-- `SpeechTranscriptionService._to_text`:
`" ".join(segment["text"].strip() for segment in segments).strip()`. -/
def toText (segments : List SingleSegment) : String :=
  pyStrip (pyJoin " " (segments.map (fun seg => pyStrip seg.text)))

/-- Python `enumerate(xs, start=n)`. -/
def pyEnumerate {α : Type} (start : Nat) : List α → List (Nat × α)
  | [] => []
  | x :: xs => (start, x) :: pyEnumerate (start + 1) xs

/-- `SpeechTranscriptionService._to_srt`: `Segment(number=index, ...)` for
`index, segment in enumerate(segments, start=1)`. -/
def toSrt (segments : List SingleSegment) : List Segment :=
  (pyEnumerate 1 segments).map (fun p =>
    { number := p.1
      text := pyStrip p.2.text
      start := p.2.start
      stop := p.2.stop })

/-! ## Machine state and external-call oracles -/

/-- Outcome of an external library call that the embedded code wraps in
`try`/`except`. -/
inductive CallOutcome (α : Type) where
  | ok (v : α)
  | runtimeErr (msg : String)
  | otherErr (msg : String)
  deriving DecidableEq, Repr

/-- The mutable state `SpeechTranscription` methods touch: the two model
caches (`__asr_cache`, `__align_cache`, Python dicts modelled as key-unique
association lists of instance ids), a counter handing out fresh instance
ids for loaded models (so cache-handle identity is observable), and the
set of files on disk. -/
structure TState where
  asrCache : List (String × Nat)
  alignCache : List (String × Nat)
  nextId : Nat
  fs : List String
  deriving DecidableEq, Repr

/-- Oracle for the external calls one `transcribe` request performs. -/
structure Env where
  /-- Modelled from the spec: the `audio_separator` library is an external
  collaborator; `Separator.separate` "produces two derived audio files
  (vocal track, instrumental track)" and per the spec the engine loads
  "the instrumental-free / vocals track (the second of the two outputs)".
  So `separated.1` is the instrumental track's path and `separated.2` the
  vocals track's path, and `separate` returns `[separated.1, separated.2]`
  after creating both files. -/
  separated : String × String
  /-- `whisperx.audio.load_audio` on a given path: `none` = success (the
  waveform is tagged by the path it was decoded from), `some msg` = the
  call raises `RuntimeError msg` (re-raised by `_load_audio`). -/
  loadAudio : String → Option String
  /-- `asr.transcribe` on the waveform loaded from a given path. -/
  decode : String → CallOutcome TranscriptionResult
  /-- The `whisperx.alignment.align` call. -/
  alignCall : CallOutcome AlignedResult
  /-- Modelled from the spec: `src/transcription/utils.py` is not under
  `src/`; `temporary_audio_file` materializes the upload at a fresh local
  path for the duration of the request, "guaranteeing deletion afterward
  regardless of outcome". -/
  tempPath : String

/-- `os.remove` under a `try`/`except FileNotFoundError: pass`: delete the
file, tolerating a file that is already gone. -/
def osRemove (fs : List String) (f : String) : List String :=
  fs.filter (fun g => g != f)

/-- Python dict lookup in a cache. -/
def cacheFind (c : List (String × Nat)) (k : String) : Option Nat :=
  (c.find? (fun p => p.1 == k)).map (·.2)

/-- Python dict assignment `cache[k] = v`: overwrite the entry for `k` in
place if present, else append a new one — a dict never gains a duplicate
key and preserves insertion order, like Python's. -/
def dictInsert (c : List (String × Nat)) (k : String) (v : Nat) : List (String × Nat) :=
  match c with
  | [] => [(k, v)]
  | (k0, v0) :: rest => if k0 == k then (k, v) :: rest else (k0, v0) :: dictInsert rest k v

namespace SpeechTranscription

/-- `SpeechTranscription._load_asr`: `self.__asr_cache[model] =
load_model(...)`.  `load_model` hands back a fresh pipeline instance
(fresh id); a load failure would re-raise, but the modelled loads always
succeed (no claim exercises a failing load). -/
def load_asr (s : TState) (model : Model) : TState :=
  { s with
    asrCache := dictInsert s.asrCache model.val s.nextId
    nextId := s.nextId + 1 }

/-- `SpeechTranscription._load_align`: `self.__align_cache[lang_code] =
(align_model, metadata)`, the pair identified by a fresh id. -/
def load_align (s : TState) (langCode : String) : TState :=
  { s with
    alignCache := dictInsert s.alignCache langCode s.nextId
    nextId := s.nextId + 1 }

/-- `SpeechTranscription._get_asr`: `if model.value not in self.__asr_cache:
self._load_asr(model)` then `return self.__asr_cache[model.value]`. -/
def get_asr (s : TState) (model : Model) : TState × Nat :=
  let s1 := if (cacheFind s.asrCache model.val).isSome then s else load_asr s model
  (s1, (cacheFind s1.asrCache model.val).getD 0)

/-- `SpeechTranscription._get_align`: same get-or-load keyed by language. -/
def get_align (s : TState) (langCode : String) : TState × Nat :=
  let s1 := if (cacheFind s.alignCache langCode).isSome then s else load_align s langCode
  (s1, (cacheFind s1.alignCache langCode).getD 0)

/-- `SpeechTranscription.clean`: `self.__asr_cache.clear();
self.__align_cache.clear()` (plus `gc.collect()` and the CUDA cache purge,
which have no observable effect on the modelled state). -/
def clean (s : TState) : TState :=
  { s with asrCache := [], alignCache := [] }

/-- `SpeechTranscription._transcribe`: resolve the ASR pipeline from the
cache, log, then `asr.transcribe(...)` wrapped so that a `RuntimeError`
triggers `self.clean()` and re-raises, and any other exception re-raises.
The `log.debug("Transcribing...", ..., language=language.value, ...)`
call sits before the `try` block and evaluates `language.value`
unconditionally, so a `None` language raises `AttributeError` there,
before the decode. -/
def transcribe_step (env : Env) (s : TState) (audio : String) (model : Model)
    (language : Option Language) : TState × Except PyError TranscriptionResult :=
  let s1 := (get_asr s model).1
  match language with
  | none => (s1, .error (.attributeError "NoneType object has no attribute value"))
  | some _ =>
    match env.decode audio with
    | .ok r => (s1, .ok r)
    | .runtimeErr m => (clean s1, .error (.runtimeError m))
    | .otherErr m => (s1, .error (.otherError m))

/-- `SpeechTranscription._align`: inside one `try`, resolve the alignment
pair from the cache and run `align(...)`; `except RuntimeError` cleans the
caches and re-raises, any other exception is swallowed and `None` is
returned (fallback to raw segments). -/
def align_step (env : Env) (s : TState) (langCode : String) :
    TState × Except PyError (Option AlignedResult) :=
  let s1 := (get_align s langCode).1
  match env.alignCall with
  | .ok r => (s1, .ok (some r))
  | .runtimeErr m => (clean s1, .error (.runtimeError m))
  | .otherErr _m => (s1, .ok none)

/-- Return value of `SpeechTranscription.transcribe`: the Python union
`list[SingleSegment] | tuple[list[SingleSegment], list[SingleWordSegment]]`. -/
inductive TranscribeReturn where
  | segsOnly (segments : List SingleSegment)
  | segsWords (segments : List SingleSegment) (words : List SingleWordSegment)
  deriving DecidableEq, Repr

/-- The `output_files` list returned by `separate` (instrumental first,
vocals second; see `Env.separated`). -/
def outputFiles (env : Env) : List String :=
  [env.separated.1, env.separated.2]

/-- The alignment success path of `SpeechTranscription.transcribe`:
`transcription_result["segments"]` is replaced by
`SingleSegment(start=seg["start"], end=seg["end"], text=seg["text"].strip())`
over the aligned segments, and the pair with `align_result["word_segments"]`
is returned. -/
def alignedReturn (ar : AlignedResult) : TranscribeReturn :=
  .segsWords
    (ar.segments.map (fun seg =>
      { start := seg.start, stop := seg.stop, text := pyStrip seg.text }))
    ar.word_segments

/-- The tail of `SpeechTranscription.transcribe` after the waveform is in
hand: decode, then optionally align, assembling the union return value. -/
def transcribe_from_audio (env : Env) (s : TState) (audio : String) (model : Model)
    (language : Option Language) (alignMode : Bool) :
    TState × Except PyError TranscribeReturn :=
  let step := transcribe_step env s audio model language
  match step.2 with
  | .error e => (step.1, .error e)
  | .ok tr =>
    if alignMode then
      let al := align_step env step.1 tr.language
      match al.2 with
      | .error e => (al.1, .error e)
      | .ok (some ar) => (al.1, .ok (alignedReturn ar))
      | .ok none => (al.1, .ok (.segsOnly tr.segments))
    else (step.1, .ok (.segsOnly tr.segments))

/-- `SpeechTranscription.transcribe`.  With `audio_preprocessing` the
separator creates its two output files, `audio =
self._load_audio(output_files[1])` loads the second of them, and only
after a successful load does the cleanup loop `os.remove` both files
(tolerating `FileNotFoundError`); there is no `try`/`finally`, so a
raising `_load_audio` skips the loop.  Without preprocessing the input
file is loaded directly. -/
def transcribe (env : Env) (s : TState) (audioFile : String) (model : Model)
    (language : Option Language) (alignMode audioPreprocessing : Bool) :
    TState × Except PyError TranscribeReturn :=
  if audioPreprocessing then
    let files := outputFiles env
    let s1 := { s with fs := s.fs ++ files }
    match env.loadAudio (files.getD 1 "") with
    | some msg => (s1, .error (.runtimeError msg))
    | none =>
      let s2 := { s1 with fs := files.foldl osRemove s1.fs }
      transcribe_from_audio env s2 (files.getD 1 "") model language alignMode
  else
    match env.loadAudio audioFile with
    | some msg => (s, .error (.runtimeError msg))
    | none => transcribe_from_audio env s audioFile model language alignMode

end SpeechTranscription

/-! ## Service façade (`services.py`) -/

/-- The three typed payloads of `SpeechTranscriptionService.transcribe`:
`TranscriptionTextResult`, `TranscriptionSrtResult`,
`TranscriptionFullResult` (the schema models are not under `src/`; their
shapes `{text}`, `{srt}`, `{segments, words|null}` follow the spec and the
constructor calls in `services.py`). -/
inductive ServiceResult where
  | textResult (text : String)
  | srtResult (srt : List Segment)
  | fullResult (segments : List Segment) (words : Option (List WordSegment))
  deriving DecidableEq, Repr

/-- `WordSegment(**word)`: the schema model built verbatim from a
`SingleWordSegment` dict. -/
def toWordSegment (w : SingleWordSegment) : WordSegment :=
  { word := w.word, start := w.start, stop := w.stop, score := w.score }

namespace SpeechTranscriptionService

/-- Result of the Python statement `segments, words = self._transcribe(...)`
when the right-hand side is the engine's union return value: a tuple
unpacks componentwise; a plain `list` unpacks element-wise, so a
two-element segment list binds its two `SingleSegment` dicts to the two
targets (`misbound`), and any other length raises `ValueError`. -/
inductive UnpackOutcome where
  | proper (segments : List SingleSegment) (words : Option (List SingleWordSegment))
  | misbound (first second : SingleSegment)
  | unpackError
  deriving DecidableEq, Repr

/-- Python unpacking of the engine's return value into two targets. -/
def unpackTwo : SpeechTranscription.TranscribeReturn → UnpackOutcome
  | .segsWords segs words => .proper segs (some words)
  | .segsOnly [a, b] => .misbound a b
  | .segsOnly _ => .unpackError

/-- `SpeechTranscriptionService._transcribe`: `with temporary_audio_file(file)
as path:` materializes the upload at `env.tempPath`, runs the engine on that
path, and the context manager deletes the path on every exit (success or
exception). -/
def transcribe_upload (env : Env) (s : TState) (model : Model)
    (language : Option Language) (alignMode audioPreprocessing : Bool) :
    TState × Except PyError SpeechTranscription.TranscribeReturn :=
  let s1 := { s with fs := s.fs ++ [env.tempPath] }
  let run := SpeechTranscription.transcribe env s1 env.tempPath model language
    alignMode audioPreprocessing
  ({ run.1 with fs := osRemove run.1.fs env.tempPath }, run.2)

/-- The `words` expression of the `FULL` branch:
`[WordSegment(**word) for word in words] if words else None` — an empty
list is falsy, so it collapses to `None` just like absent word data. -/
def fullWords (words : Option (List SingleWordSegment)) : Option (List WordSegment) :=
  match words with
  | some ws => if ws.isEmpty then none else some (ws.map toWordSegment)
  | none => none

/-- `SpeechTranscriptionService.transcribe`.  `words` starts as `None`;
under `align_mode` the engine's return value is tuple-unpacked into
`segments, words`, otherwise it is bound whole to `segments`.  Only then
does the `match format_result` dispatch run: `TEXT`/`SRT`/`FULL` format
the bound segments (a `misbound` binding makes every formatter subscript
a dict's string keys and raise `TypeError`), and any other format value
raises `ValueError` without touching `segments`. -/
def transcribe (env : Env) (s : TState) (model : Model)
    (language : Option Language) (formatResult : String)
    (alignMode audioPreprocessing : Bool) :
    TState × Except PyError ServiceResult :=
  let up := transcribe_upload env s model language alignMode audioPreprocessing
  match up.2 with
  | .error e => (up.1, .error e)
  | .ok ret =>
    let bound : Except PyError UnpackOutcome :=
      if alignMode then
        match unpackTwo ret with
        | .unpackError => .error (.valueError "not enough values to unpack")
        | o => .ok o
      else
        match ret with
        | .segsOnly segs => .ok (.proper segs none)
        | .segsWords segs words => .ok (.proper segs (some words))
    match bound with
    | .error e => (up.1, .error e)
    | .ok bv =>
      if formatResult = ResultFormatTEXT then
        match bv with
        | .proper segs _ => (up.1, .ok (.textResult (toText segs)))
        | _ => (up.1, .error (.typeError "string indices must be integers"))
      else if formatResult = ResultFormatSRT then
        match bv with
        | .proper segs _ => (up.1, .ok (.srtResult (toSrt segs)))
        | _ => (up.1, .error (.typeError "string indices must be integers"))
      else if formatResult = ResultFormatFULL then
        match bv with
        | .proper segs words => (up.1, .ok (.fullResult (toSrt segs) (fullWords words)))
        | _ => (up.1, .error (.typeError "string indices must be integers"))
      else
        (up.1, .error (.valueError ("Unsupported result format: " ++ formatResult)))

end SpeechTranscriptionService

/-! ## Helper lemmas -/

lemma intercalate_go_eq (sep : String) (xs : List String) : ∀ acc : String,
    String.intercalate.go acc sep xs =
      if xs.isEmpty then acc else acc ++ sep ++ pyJoin sep xs := by
  induction xs with
  | nil => intro acc; rfl
  | cons a as ih =>
    intro acc
    rw [String.intercalate.go, ih]
    cases as with
    | nil => rfl
    | cons b bs => simp [pyJoin, String.append_assoc]

/-- Python's `sep.join` agrees with the library `String.intercalate`. -/
lemma pyJoin_eq_intercalate (sep : String) (xs : List String) :
    pyJoin sep xs = String.intercalate sep xs := by
  cases xs with
  | nil => rfl
  | cons a as =>
    rw [String.intercalate, intercalate_go_eq]
    cases as with
    | nil => rfl
    | cons b bs => rfl

lemma pyEnumerate_length {α : Type} (xs : List α) :
    ∀ start, (pyEnumerate start xs).length = xs.length := by
  induction xs with
  | nil => intro s; rfl
  | cons a as ih => intro s; simp [pyEnumerate, ih]

lemma pyEnumerate_get {α : Type} (xs : List α) :
    ∀ (start i : Nat) (h : i < xs.length) (h2 : i < (pyEnumerate start xs).length),
      (pyEnumerate start xs).get ⟨i, h2⟩ = (start + i, xs.get ⟨i, h⟩) := by
  induction xs with
  | nil => intro s i h h2; exact absurd h (Nat.not_lt_zero i)
  | cons a as ih =>
    intro s i h h2
    cases i with
    | zero => simp [pyEnumerate]
    | succ j =>
      have hj : j < as.length := Nat.lt_of_succ_lt_succ h
      have hj2 : j < (pyEnumerate (s + 1) as).length := by
        rw [pyEnumerate_length]; exact hj
      show (pyEnumerate (s + 1) as).get ⟨j, hj2⟩ = (s + (j + 1), as.get ⟨j, hj⟩)
      rw [ih (s + 1) j hj hj2]
      congr 1
      omega

/-- The keys of a cache are pairwise distinct (what "never holds two
entries for the same key" means for the association-list model of a
Python dict). -/
def keysNodup (c : List (String × Nat)) : Prop :=
  (c.map Prod.fst).Nodup

lemma cacheFind_dictInsert_self (c : List (String × Nat)) (k : String) (v : Nat) :
    cacheFind (dictInsert c k v) k = some v := by
  induction c with
  | nil => simp [dictInsert, cacheFind]
  | cons p rest ih =>
    obtain ⟨k0, v0⟩ := p
    by_cases hk : k0 == k
    · simp [dictInsert, hk, cacheFind]
    · simpa [dictInsert, hk, cacheFind] using ih

lemma mem_keys_dictInsert (c : List (String × Nat)) (k x : String) (v : Nat)
    (hx : x ∈ (dictInsert c k v).map Prod.fst) :
    x ∈ c.map Prod.fst ∨ x = k := by
  induction c with
  | nil =>
    simp [dictInsert] at hx
    exact Or.inr hx
  | cons p rest ih =>
    obtain ⟨k0, v0⟩ := p
    by_cases hk : k0 == k
    · simp [dictInsert, hk] at hx
      rcases hx with h | h
      · exact Or.inr h
      · exact Or.inl (by simp [h])
    · simp [dictInsert, hk] at hx
      rcases hx with h | h
      · exact Or.inl (by simp [h])
      · rcases ih (by simpa using h) with h1 | h1
        · exact Or.inl (by simp at h1 ⊢; exact Or.inr h1)
        · exact Or.inr h1

lemma keysNodup_dictInsert (c : List (String × Nat)) (k : String) (v : Nat)
    (h : keysNodup c) : keysNodup (dictInsert c k v) := by
  induction c with
  | nil => simp [dictInsert, keysNodup]
  | cons p rest ih =>
    obtain ⟨k0, v0⟩ := p
    rw [keysNodup, List.map_cons, List.nodup_cons] at h
    obtain ⟨hnot, hrest⟩ := h
    by_cases hk : k0 == k
    · have hkeq : k0 = k := by simpa using hk
      subst hkeq
      rw [keysNodup]
      show ((if (k0 == k0) = true then (k0, v) :: rest
             else (k0, v0) :: dictInsert rest k0 v).map Prod.fst).Nodup
      rw [if_pos (by simp)]
      rw [List.map_cons, List.nodup_cons]
      exact ⟨hnot, hrest⟩
    · rw [keysNodup]
      show ((if (k0 == k) = true then (k, v) :: rest
             else (k0, v0) :: dictInsert rest k v).map Prod.fst).Nodup
      rw [if_neg (by simpa using hk)]
      rw [List.map_cons, List.nodup_cons]
      refine ⟨?_, ih hrest⟩
      intro hx
      rcases mem_keys_dictInsert rest k k0 v hx with h1 | h1
      · exact hnot h1
      · exact (by simpa using hk : ¬ k0 = k) h1

/-! ## Spec-side formatter definition (for the refinement claim C7) -/

/-- The spec's wording for the text format: "join every segment's trimmed
text with a single space, trim the result", with the library's
`String.intercalate` as the join. -/
def toTextFromSpec (segments : List SingleSegment) : String :=
  pyStrip (String.intercalate " " (segments.map (fun seg => pyStrip seg.text)))

/-! ## Claim theorems -/

/-- C7: for every list of raw segments, `_to_text` returns the trimmed
texts of every segment in order, joined with a single space, with the
whole result trimmed; in particular the segments
`[{text: " hi "}, {text: "there"}]` yield `"hi there"`. -/
theorem c7_text_format_joins_trimmed_texts :
    (∀ segments : List SingleSegment, toText segments = toTextFromSpec segments) ∧
    toText [{ start := 0, stop := 1, text := " hi " },
            { start := 1, stop := 2, text := "there" }] = "hi there" := by
  constructor
  · intro segments
    unfold toText toTextFromSpec
    rw [pyJoin_eq_intercalate]
  · rfl

/-- C8: for every list of raw segments, `_to_srt` returns one output
segment per input segment in the original order, numbered sequentially
from 1, each carrying the input's trimmed text and unchanged start and
end times. -/
theorem c8_srt_format_numbers_segments (segments : List SingleSegment) :
    (toSrt segments).length = segments.length ∧
    ∀ (i : Nat) (h : i < segments.length) (h2 : i < (toSrt segments).length),
      (toSrt segments).get ⟨i, h2⟩ =
        { number := i + 1
          text := pyStrip (segments.get ⟨i, h⟩).text
          start := (segments.get ⟨i, h⟩).start
          stop := (segments.get ⟨i, h⟩).stop } := by
  constructor
  · simp [toSrt, pyEnumerate_length]
  · intro i h h2
    unfold toSrt at h2 ⊢
    rw [List.get_map]
    have hp : i < (pyEnumerate 1 segments).length := by
      rw [pyEnumerate_length]; exact h
    rw [pyEnumerate_get segments 1 i h hp]
    congr 1
    omega

/-- Witness for C8 at the spec's concrete example. -/
theorem c8_srt_format_numbers_segments_witness :
    (toSrt [{ start := 0, stop := 1, text := " hi " },
            { start := 1, stop := 2, text := "there" }]).length = 2 ∧
    (toSrt [{ start := 0, stop := 1, text := " hi " },
            { start := 1, stop := 2, text := "there" }]).get ⟨1, by decide⟩ =
      { number := 2, text := "there", start := 1, stop := 2 } := by
  have h := c8_srt_format_numbers_segments
    [{ start := 0, stop := 1, text := " hi " }, { start := 1, stop := 2, text := "there" }]
  exact ⟨h.1, h.2 1 (by decide) (by decide)⟩

/-! ## Concrete instances used by witnesses and counterexamples -/

/-- A fresh engine state: both caches empty, no files on disk. -/
def emptyState : TState :=
  { asrCache := [], alignCache := [], nextId := 0, fs := [] }

def segHi : SingleSegment := { start := 0, stop := 1, text := " hi " }

def segThere : SingleSegment := { start := 1, stop := 2, text := "there" }

def trTwo : TranscriptionResult := { segments := [segHi, segThere], language := "en" }

def trOne : TranscriptionResult := { segments := [segHi], language := "en" }

def arHi : AlignedResult :=
  { segments := [{ start := 0, stop := 2, text := " hi there " }]
    word_segments := [{ word := "hi", start := 0, stop := 1, score := none }] }

def arNoWords : AlignedResult :=
  { segments := [{ start := 0, stop := 2, text := " hi there " }]
    word_segments := [] }

/-- A well-behaved oracle: separation yields `inst.wav`/`voc.wav`, every
audio load succeeds, decode yields `trTwo`, alignment yields `arHi`. -/
def envHappy : Env :=
  { separated := ("inst.wav", "voc.wav")
    loadAudio := fun _ => none
    decode := fun _ => .ok trTwo
    alignCall := .ok arHi
    tempPath := "tmp.wav" }

/-- C6: two successive get-or-load requests for the same uncached key
return the identical cached pipeline instance and trigger exactly one
load (the second request changes nothing), and a get-or-load never
introduces a duplicate key into either cache. -/
theorem c6_cache_get_or_load_idempotent :
    (∀ (s : TState) (model : Model), cacheFind s.asrCache model.val = none →
      (SpeechTranscription.get_asr (SpeechTranscription.get_asr s model).1 model).2 =
        (SpeechTranscription.get_asr s model).2 ∧
      (SpeechTranscription.get_asr (SpeechTranscription.get_asr s model).1 model).1 =
        (SpeechTranscription.get_asr s model).1 ∧
      (SpeechTranscription.get_asr s model).1.nextId = s.nextId + 1) ∧
    (∀ (s : TState) (langCode : String), cacheFind s.alignCache langCode = none →
      (SpeechTranscription.get_align (SpeechTranscription.get_align s langCode).1 langCode).2 =
        (SpeechTranscription.get_align s langCode).2 ∧
      (SpeechTranscription.get_align (SpeechTranscription.get_align s langCode).1 langCode).1 =
        (SpeechTranscription.get_align s langCode).1 ∧
      (SpeechTranscription.get_align s langCode).1.nextId = s.nextId + 1) ∧
    (∀ (s : TState) (model : Model), keysNodup s.asrCache →
      keysNodup (SpeechTranscription.get_asr s model).1.asrCache) ∧
    (∀ (s : TState) (langCode : String), keysNodup s.alignCache →
      keysNodup (SpeechTranscription.get_align s langCode).1.alignCache) := by
  refine ⟨?_, ?_, ?_, ?_⟩
  · intro s model h
    simp [SpeechTranscription.get_asr, SpeechTranscription.load_asr, h,
      cacheFind_dictInsert_self]
  · intro s langCode h
    simp [SpeechTranscription.get_align, SpeechTranscription.load_align, h,
      cacheFind_dictInsert_self]
  · intro s model h
    by_cases hc : (cacheFind s.asrCache model.val).isSome
    · simpa [SpeechTranscription.get_asr, hc] using h
    · simpa [SpeechTranscription.get_asr, hc, SpeechTranscription.load_asr] using
        keysNodup_dictInsert s.asrCache model.val s.nextId h
  · intro s langCode h
    by_cases hc : (cacheFind s.alignCache langCode).isSome
    · simpa [SpeechTranscription.get_align, hc] using h
    · simpa [SpeechTranscription.get_align, hc, SpeechTranscription.load_align] using
        keysNodup_dictInsert s.alignCache langCode s.nextId h

/-- Witness for C6 on a fresh state, the `small` ASR model and the `en`
alignment model. -/
theorem c6_cache_get_or_load_idempotent_witness :
    ((SpeechTranscription.get_asr (SpeechTranscription.get_asr emptyState .small).1 .small).2 =
        (SpeechTranscription.get_asr emptyState .small).2 ∧
      (SpeechTranscription.get_asr (SpeechTranscription.get_asr emptyState .small).1 .small).1 =
        (SpeechTranscription.get_asr emptyState .small).1 ∧
      (SpeechTranscription.get_asr emptyState .small).1.nextId = emptyState.nextId + 1) ∧
    ((SpeechTranscription.get_align (SpeechTranscription.get_align emptyState "en").1 "en").2 =
        (SpeechTranscription.get_align emptyState "en").2 ∧
      (SpeechTranscription.get_align (SpeechTranscription.get_align emptyState "en").1 "en").1 =
        (SpeechTranscription.get_align emptyState "en").1 ∧
      (SpeechTranscription.get_align emptyState "en").1.nextId = emptyState.nextId + 1) ∧
    keysNodup (SpeechTranscription.get_asr emptyState .small).1.asrCache ∧
    keysNodup (SpeechTranscription.get_align emptyState "en").1.alignCache := by
  have h := c6_cache_get_or_load_idempotent
  exact ⟨h.1 emptyState .small rfl, h.2.1 emptyState "en" rfl,
    h.2.2.1 emptyState .small (by simp [emptyState, keysNodup]),
    h.2.2.2 emptyState "en" (by simp [emptyState, keysNodup])⟩

/-- The state after the separator created its two files and the cleanup
loop removed them again (the preprocessing branch of `transcribe` once
`_load_audio` has succeeded). -/
def afterSeparationState (env : Env) (s : TState) : TState :=
  { s with fs := (SpeechTranscription.outputFiles env).foldl osRemove (s.fs ++ SpeechTranscription.outputFiles env) }

/-- C3: with `audio_preprocessing=True`, once the separated track loads
successfully the whole remaining pipeline (decode, optional alignment)
runs on the waveform loaded from the vocals (instrumental-free) track,
`output_files[1]` — the second of the separator's two outputs. -/
theorem c3_preprocessing_decodes_vocals_track (env : Env) (s : TState)
    (audioFile : String) (model : Model) (language : Option Language)
    (alignMode : Bool)
    (h : env.loadAudio env.separated.2 = none) :
    SpeechTranscription.transcribe env s audioFile model language alignMode true =
      SpeechTranscription.transcribe_from_audio env (afterSeparationState env s)
        env.separated.2 model language alignMode := by
  unfold SpeechTranscription.transcribe afterSeparationState
  simp [SpeechTranscription.outputFiles, h]

/-- Witness for C3: the happy-path oracle, whose vocals track is
`voc.wav`. -/
theorem c3_preprocessing_decodes_vocals_track_witness :
    SpeechTranscription.transcribe envHappy emptyState "in.wav" .small
        (some .english) true true =
      SpeechTranscription.transcribe_from_audio envHappy
        (afterSeparationState envHappy emptyState)
        envHappy.separated.2 .small (some .english) true :=
  c3_preprocessing_decodes_vocals_track envHappy emptyState "in.wav" .small
    (some .english) true rfl

/-- C4: a decode or alignment call that raises a resource-exhaustion
`RuntimeError` inside `SpeechTranscription.transcribe` leaves both model
caches empty immediately afterwards, and that same exception propagates
unchanged to the caller. -/
theorem c4_resource_error_empties_caches_and_reraises :
    (∀ (env : Env) (s : TState) (audioFile : String) (model : Model)
        (lg : Language) (alignMode audioPreprocessing : Bool) (m : String),
      (∀ f, env.loadAudio f = none) →
      (∀ a, env.decode a = .runtimeErr m) →
      (SpeechTranscription.transcribe env s audioFile model (some lg)
          alignMode audioPreprocessing).1.asrCache = [] ∧
      (SpeechTranscription.transcribe env s audioFile model (some lg)
          alignMode audioPreprocessing).1.alignCache = [] ∧
      (SpeechTranscription.transcribe env s audioFile model (some lg)
          alignMode audioPreprocessing).2 = .error (.runtimeError m)) ∧
    (∀ (env : Env) (s : TState) (audioFile : String) (model : Model)
        (lg : Language) (audioPreprocessing : Bool)
        (tr : TranscriptionResult) (m : String),
      (∀ f, env.loadAudio f = none) →
      (∀ a, env.decode a = .ok tr) →
      env.alignCall = .runtimeErr m →
      (SpeechTranscription.transcribe env s audioFile model (some lg)
          true audioPreprocessing).1.asrCache = [] ∧
      (SpeechTranscription.transcribe env s audioFile model (some lg)
          true audioPreprocessing).1.alignCache = [] ∧
      (SpeechTranscription.transcribe env s audioFile model (some lg)
          true audioPreprocessing).2 = .error (.runtimeError m)) := by
  constructor
  · intro env s audioFile model lg alignMode audioPreprocessing m hload hdecode
    cases audioPreprocessing <;>
      simp [SpeechTranscription.transcribe, SpeechTranscription.transcribe_from_audio,
        SpeechTranscription.transcribe_step, SpeechTranscription.outputFiles,
        SpeechTranscription.clean, hload, hdecode]
  · intro env s audioFile model lg audioPreprocessing tr m hload hdecode halign
    cases audioPreprocessing <;>
      simp [SpeechTranscription.transcribe, SpeechTranscription.transcribe_from_audio,
        SpeechTranscription.transcribe_step, SpeechTranscription.align_step,
        SpeechTranscription.outputFiles, SpeechTranscription.clean,
        hload, hdecode, halign]

/-- Witness for C4: a decode that raises "CUDA out of memory" and an
alignment that does, each on the happy-path oracle. -/
theorem c4_resource_error_empties_caches_and_reraises_witness :
    ((SpeechTranscription.transcribe
        { envHappy with decode := fun _ => .runtimeErr "CUDA out of memory" }
        emptyState "in.wav" .small (some .english) true false).1.asrCache = [] ∧
     (SpeechTranscription.transcribe
        { envHappy with decode := fun _ => .runtimeErr "CUDA out of memory" }
        emptyState "in.wav" .small (some .english) true false).1.alignCache = [] ∧
     (SpeechTranscription.transcribe
        { envHappy with decode := fun _ => .runtimeErr "CUDA out of memory" }
        emptyState "in.wav" .small (some .english) true false).2 =
       .error (.runtimeError "CUDA out of memory")) ∧
    ((SpeechTranscription.transcribe
        { envHappy with alignCall := .runtimeErr "CUDA out of memory" }
        emptyState "in.wav" .small (some .english) true false).1.asrCache = [] ∧
     (SpeechTranscription.transcribe
        { envHappy with alignCall := .runtimeErr "CUDA out of memory" }
        emptyState "in.wav" .small (some .english) true false).1.alignCache = [] ∧
     (SpeechTranscription.transcribe
        { envHappy with alignCall := .runtimeErr "CUDA out of memory" }
        emptyState "in.wav" .small (some .english) true false).2 =
       .error (.runtimeError "CUDA out of memory")) := by
  have h := c4_resource_error_empties_caches_and_reraises
  exact ⟨h.1 { envHappy with decode := fun _ => .runtimeErr "CUDA out of memory" }
      emptyState "in.wav" .small .english true false "CUDA out of memory"
      (fun f => rfl) (fun a => rfl),
    h.2 { envHappy with alignCall := .runtimeErr "CUDA out of memory" }
      emptyState "in.wav" .small .english false trTwo "CUDA out of memory"
      (fun f => rfl) (fun a => rfl) rfl⟩

/-- C5: when `align_mode=True` and the forced-alignment call raises a
non-resource error, the engine returns exactly the raw decoded segments,
unchanged, as a segments-only value with no word list, and does not
raise. -/
theorem c5_alignment_fallback_returns_raw_segments (env : Env) (s : TState)
    (audioFile : String) (model : Model) (lg : Language)
    (audioPreprocessing : Bool) (tr : TranscriptionResult) (m : String)
    (hload : ∀ f, env.loadAudio f = none)
    (hdecode : ∀ a, env.decode a = .ok tr)
    (halign : env.alignCall = .otherErr m) :
    (SpeechTranscription.transcribe env s audioFile model (some lg)
        true audioPreprocessing).2 =
      .ok (.segsOnly tr.segments) := by
  cases audioPreprocessing <;>
    simp [SpeechTranscription.transcribe, SpeechTranscription.transcribe_from_audio,
      SpeechTranscription.transcribe_step, SpeechTranscription.align_step,
      SpeechTranscription.outputFiles, hload, hdecode, halign]

/-- Witness for C5: alignment failing with a non-resource error on the
two-segment decode. -/
theorem c5_alignment_fallback_returns_raw_segments_witness :
    (SpeechTranscription.transcribe { envHappy with alignCall := .otherErr "boom" }
        emptyState "in.wav" .small (some .english) true false).2 =
      .ok (.segsOnly trTwo.segments) :=
  c5_alignment_fallback_returns_raw_segments
    { envHappy with alignCall := .otherErr "boom" } emptyState "in.wav" .small
    .english false trTwo "boom" (fun _ => rfl) (fun _ => rfl) rfl

/-- C1 (code slip, engine/service mismatch): with `align_mode=True` and a
forced-alignment call that raises a non-resource error, the engine
degrades to a plain one-element segment list, but
`SpeechTranscriptionService.transcribe` executes
`segments, words = self._transcribe(...)` on it, so the request fails
with `ValueError` instead of returning a result built from the raw
segments. -/
theorem c1_service_crashes_on_alignment_fallback :
    (SpeechTranscriptionService.transcribe
        { envHappy with decode := fun _ => .ok trOne, alignCall := .otherErr "boom" }
        emptyState .small (some .english) ResultFormatTEXT true false).2 =
      .error (.valueError "not enough values to unpack") := rfl

/-- C2 (missing `try`/`finally`): when `_load_audio` on the separated
vocals track raises, `SpeechTranscription.transcribe` returns by
exception without ever reaching the cleanup loop, so both separator
output files are still on disk. -/
theorem c2_separated_files_survive_failed_load :
    ((SpeechTranscription.transcribe
        { envHappy with
          loadAudio := fun f => if f == "voc.wav" then some "failed to load" else none }
        emptyState "in.wav" .small (some .english) true true).1.fs =
      ["inst.wav", "voc.wav"]) ∧
    (SpeechTranscription.transcribe
        { envHappy with
          loadAudio := fun f => if f == "voc.wav" then some "failed to load" else none }
        emptyState "in.wav" .small (some .english) true true).2 =
      .error (.runtimeError "failed to load") :=
  ⟨rfl, rfl⟩

/-- C9 counterexample: requesting the unsupported format `"xml"` does
raise `ValueError`, but not immediately and not without side effects —
the full transcription pipeline runs first, and the ASR model it loaded
stays in the cache after the error. -/
theorem c9_counterexample_side_effects_before_error :
    ((SpeechTranscriptionService.transcribe envHappy emptyState .small
        (some .english) "xml" true false).2 =
      .error (.valueError "Unsupported result format: xml")) ∧
    (SpeechTranscriptionService.transcribe envHappy emptyState .small
        (some .english) "xml" true false).1.asrCache ≠ emptyState.asrCache := by
  exact ⟨rfl, by decide⟩

/-- C9 amended: for a requested output format outside
{`text`, `srt`, `full`}, when the transcription pipeline itself succeeds,
`SpeechTranscriptionService.transcribe` raises an invalid-argument
`ValueError` and produces no output — but only after the whole
transcription has run, so the pipeline's side effects (such as model
loads into the caches) happen and persist. -/
theorem c9_amended_unknown_format_raises_value_error (env : Env) (s : TState)
    (model : Model) (lg : Language) (alignMode audioPreprocessing : Bool)
    (tr : TranscriptionResult) (ar : AlignedResult) (fmt : String)
    (hload : ∀ f, env.loadAudio f = none)
    (hdecode : ∀ a, env.decode a = .ok tr)
    (halign : env.alignCall = .ok ar)
    (h1 : fmt ≠ ResultFormatTEXT) (h2 : fmt ≠ ResultFormatSRT)
    (h3 : fmt ≠ ResultFormatFULL) :
    (SpeechTranscriptionService.transcribe env s model (some lg) fmt
        alignMode audioPreprocessing).2 =
      .error (.valueError ("Unsupported result format: " ++ fmt)) := by
  cases alignMode <;> cases audioPreprocessing <;>
    simp [SpeechTranscriptionService.transcribe,
      SpeechTranscriptionService.transcribe_upload,
      SpeechTranscriptionService.unpackTwo,
      SpeechTranscription.transcribe, SpeechTranscription.transcribe_from_audio,
      SpeechTranscription.transcribe_step, SpeechTranscription.align_step,
      SpeechTranscription.outputFiles, SpeechTranscription.alignedReturn,
      hload, hdecode, halign, h1, h2, h3]

/-- Witness for the amended C9 at the concrete format `"xml"`. -/
theorem c9_amended_unknown_format_raises_value_error_witness :
    (SpeechTranscriptionService.transcribe envHappy emptyState .small
        (some .english) "xml" true false).2 =
      .error (.valueError ("Unsupported result format: " ++ "xml")) :=
  c9_amended_unknown_format_raises_value_error envHappy emptyState .small
    .english true false trTwo arHi "xml" (fun _ => rfl) (fun _ => rfl) rfl
    (by decide) (by decide) (by decide)

/-- C10: with format `FULL` and `align_mode=True`, when alignment executes
and yields an empty word-segment list, the `words` field of the returned
full result is `none` rather than an empty list — the same value as when
no word data exists at all. -/
theorem c10_full_format_empty_words_is_none (env : Env) (s : TState)
    (model : Model) (lg : Language) (audioPreprocessing : Bool)
    (tr : TranscriptionResult) (ar : AlignedResult)
    (hload : ∀ f, env.loadAudio f = none)
    (hdecode : ∀ a, env.decode a = .ok tr)
    (halign : env.alignCall = .ok ar)
    (hwords : ar.word_segments = []) :
    (SpeechTranscriptionService.transcribe env s model (some lg)
        ResultFormatFULL true audioPreprocessing).2 =
      .ok (.fullResult
        (toSrt (ar.segments.map (fun seg =>
          { start := seg.start, stop := seg.stop, text := pyStrip seg.text })))
        none) := by
  cases audioPreprocessing <;>
    simp [SpeechTranscriptionService.transcribe,
      SpeechTranscriptionService.transcribe_upload,
      SpeechTranscriptionService.unpackTwo, SpeechTranscriptionService.fullWords,
      SpeechTranscription.transcribe, SpeechTranscription.transcribe_from_audio,
      SpeechTranscription.transcribe_step, SpeechTranscription.align_step,
      SpeechTranscription.outputFiles, SpeechTranscription.alignedReturn,
      ResultFormatTEXT, ResultFormatSRT, ResultFormatFULL,
      hload, hdecode, halign, hwords]

/-- Witness for C10: alignment succeeding with no word segments. -/
theorem c10_full_format_empty_words_is_none_witness :
    (SpeechTranscriptionService.transcribe
        { envHappy with alignCall := .ok arNoWords }
        emptyState .small (some .english) ResultFormatFULL true false).2 =
      .ok (.fullResult
        (toSrt (arNoWords.segments.map (fun seg =>
          { start := seg.start, stop := seg.stop, text := pyStrip seg.text })))
        none) :=
  c10_full_format_empty_words_is_none { envHappy with alignCall := .ok arNoWords }
    emptyState .small .english false trTwo arNoWords (fun _ => rfl) (fun _ => rfl)
    rfl rfl

end SpeechTranscriptionSpec
